import Mathlib

/-!
Shallow embedding of the QR analytics engine of this repository:
the analytics endpoint get_qr_analytics of src/routes/qr.py, the public
scan ingestion endpoints redirect_qr and log_scan of src/routes/public.py,
and the enrichment helpers of src/utils.py.

Modelling conventions:
- Instants are UTC microseconds (the resolution of Python datetimes),
  carried as Int.  A timezone resolved by ZoneInfo is modelled as a fixed
  UTC offset in microseconds; the outcome of ZoneInfo name resolution is
  an Option Int (none models the exception branch for an unknown name).
- The SQL event store is a List Scan in row order; SELECT ... WHERE is
  List.filter, COUNT is List.length, GROUP BY is an insertion-ordered
  association list of counts (matching both SQL grouping and the Python
  dict built for the hourly histogram), ORDER BY is a stable sort.
- Fallible endpoints return Except ApiError.
-/

/-- Microseconds.  Python datetime resolution. -/
abbrev Micros := Int

def usPerHour : Int := 3600000000

def usPerDay : Int := 86400000000

/-- One row of the qr_scans table (class QRScan of src/models.py).  The
free-text fields that no verified operation ever reads (device_name,
browser, os, ip_address, user_agent) are omitted. -/
structure Scan where
  id : Nat
  qr_code_id : Nat
  scanned_at : Micros
  device_type : String
  country : Option String
  city : Option String
  region : Option String
deriving DecidableEq

/-- One row of the qr_codes table (class QRCode of src/models.py). -/
structure QRCode where
  id : Nat
  code : String
  target_url : String
  created_by : Nat
  is_active : Bool
deriving DecidableEq

/-- local_now.replace(hour=0, minute=0, second=0, microsecond=0): the local
midnight of a wall-clock instant given in local microseconds. -/
def localMidnight (t : Micros) : Micros := t - t.emod usPerDay

/-- Lines 536-558 of src/routes/qr.py: resolve the requested time range to
UTC bounds.  local_now is the wall-clock now in the target zone, off the
zone offset in microseconds; a local wall instant w corresponds to the UTC
instant w - off (datetime.astimezone for a fixed-offset zone).  The
explicit-dates branch mirrors datetime.combine with time.min and time.max
(23:59:59.999999, hence usPerDay - 1). -/
def resolveWindow (time_range : String) (start_date end_date : Option Int)
    (off : Int) (local_now : Micros) : Option Micros × Option Micros :=
  match start_date, end_date with
  | some sd, some ed =>
      (some (sd * usPerDay - off), some (ed * usPerDay + (usPerDay - 1) - off))
  | _, _ =>
      let local_start : Option Micros :=
        if time_range == "today" then some (localMidnight local_now)
        else if time_range == "7days" then some (local_now - 7 * usPerDay)
        else if time_range == "30days" then some (local_now - 30 * usPerDay)
        else if time_range == "90days" then some (local_now - 90 * usPerDay)
        else if time_range == "year" then some (local_now - 365 * usPerDay)
        else none
      (Option.map (fun ls => ls - off) local_start, some (local_now - off))

/-- Lines 560-566 of src/routes/qr.py: the shared filter list, applied by
every aggregation query of the endpoint. -/
def matchesFilters (qr_id : Nat) (us ue : Option Micros) (s : Scan) : Bool :=
  s.qr_code_id == qr_id
    && (match us with | none => true | some a => decide (a ≤ s.scanned_at))
    && (match ue with | none => true | some b => decide (s.scanned_at ≤ b))

/-- SELECT ... WHERE and_(*filters) over the event store. -/
def filteredScans (store : List Scan) (qr_id : Nat) (us ue : Option Micros) :
    List Scan :=
  store.filter (matchesFilters qr_id us ue)

/-- scan_time.replace(tzinfo=UTC).astimezone(tz).hour for a fixed-offset
zone: the local hour of day of a UTC instant. -/
def localHour (off : Int) (t : Micros) : Nat :=
  (((t + off).fdiv usPerHour).emod 24).toNat

/-- Insertion-ordered counter update: the Python statement
hourly_counts[k] = hourly_counts.get(k, 0) + 1 on an association list. -/
def bump {α : Type} [DecidableEq α] : List (α × Nat) → α → List (α × Nat)
  | [], k => [(k, 1)]
  | (a, n) :: d, k => if a = k then (a, n + 1) :: d else (a, n) :: bump d k

/-- Counting dict built by a left fold of bump, in insertion order of the
keys: models both the Python hourly_counts dict and a SQL GROUP BY count. -/
def groupCounts {α : Type} [DecidableEq α] (l : List α) : List (α × Nat) :=
  l.foldl bump []

/-- dict.get(k, 0) on a counting association list. -/
def lookupCount {α : Type} [DecidableEq α] : List (α × Nat) → α → Nat
  | [], _ => 0
  | (a, n) :: d, k => if a = k then n else lookupCount d k

/-- One step of the Python builtin max with key=lambda x: x[1]: the current
best is replaced only when the new value is strictly greater. -/
def maxStep {α : Type} (a y : α × Nat) : α × Nat :=
  if a.2 < y.2 then y else a

/-- max(d.items(), key=lambda x: x[1]) over a dict in insertion order,
none on an empty dict (the falsy-dict guard of line 669 of
src/routes/qr.py). -/
def pyMaxPair {α : Type} : List (α × Nat) → Option (α × Nat)
  | [] => none
  | x :: d => some (d.foldl maxStep x)

/-- peak_hour of line 669 of src/routes/qr.py. -/
def pyMaxKey {α : Type} : List (α × Nat) → Option α :=
  fun d => (pyMaxPair d).map Prod.fst

/-- Lines 664-667 of src/routes/qr.py: the dense 24-entry hour histogram
(hour, count) read off the hourly_counts dict. -/
def hourlyBreakdown (d : List (Nat × Nat)) : List (Nat × Nat) :=
  (List.range 24).map (fun h => (h, lookupCount d h))

/-- ORDER BY scanned_at DESC. -/
def byNewest (a b : Scan) : Prop := b.scanned_at ≤ a.scanned_at

instance : DecidableRel byNewest := fun a b => Int.decLe _ _

instance : IsTotal Scan byNewest :=
  ⟨fun a b => (le_total b.scanned_at a.scanned_at).imp id id⟩

instance : IsTrans Scan byNewest :=
  ⟨fun _ _ _ hab hbc => le_trans hbc hab⟩

/-- ORDER BY count DESC on grouped rows. -/
def byCountDesc {α : Type} (a b : α × Nat) : Prop := b.2 ≤ a.2

instance {α : Type} : DecidableRel (byCountDesc (α := α)) :=
  fun a b => Nat.decLe _ _

instance {α : Type} : IsTotal (α × Nat) (byCountDesc (α := α)) :=
  ⟨fun a b => (le_total b.2 a.2).imp id id⟩

instance {α : Type} : IsTrans (α × Nat) (byCountDesc (α := α)) :=
  ⟨fun _ _ _ hab hbc => le_trans hbc hab⟩

/-- Lines 671-679 of src/routes/qr.py: the in-window events ordered by
scanned_at descending, LIMIT 10. -/
def recentScans (scans : List Scan) : List Scan :=
  (List.insertionSort byNewest scans).take 10

/-- device_counts.get(d, 0) after the GROUP BY device_type query of lines
588-597 of src/routes/qr.py. -/
def deviceCount (scans : List Scan) (d : String) : Nat :=
  (scans.filter (fun s => s.device_type == d)).length

/-- Python round(x, 1): round half to even at one decimal, on exact
rationals. -/
def pyRound1 (q : ℚ) : ℚ :=
  let n : ℚ := q * 10
  let f : ℤ := ⌊n⌋
  let re : ℚ := n - (f : ℚ)
  if re < 1 / 2 then (f : ℚ) / 10
  else if 1 / 2 < re then ((f + 1 : ℤ) : ℚ) / 10
  else if f % 2 = 0 then (f : ℚ) / 10
  else ((f + 1 : ℤ) : ℚ) / 10

/-- Line 609 of src/routes/qr.py:
round((mobile / total_scans * 100) if total_scans else 0, 1). -/
def mobilePercentage (mobile total : Nat) : ℚ :=
  pyRound1 (if total = 0 then 0 else (mobile : ℚ) / (total : ℚ) * 100)

/-- Lines 629-643 of src/routes/qr.py: group the in-window events with
country IS NOT NULL by country, order by count descending, LIMIT 5. -/
def topCountries (scans : List Scan) : List (String × Nat) :=
  (List.insertionSort byCountDesc
      (groupCounts (scans.filterMap (fun s => s.country)))).take 5

/-- Lines 612-627 of src/routes/qr.py: group the in-window events with
city IS NOT NULL by (city, country), order by count descending, LIMIT 5. -/
def topCities (scans : List Scan) : List ((String × Option String) × Nat) :=
  (List.insertionSort byCountDesc
      (groupCounts
        (scans.filterMap (fun s => s.city.map (fun c => (c, s.country)))))).take 5

inductive ApiError where
  | invalidTimezone
  | qrNotFound
deriving DecidableEq

/-- HTTP status attached to each HTTPException of the endpoint. -/
def ApiError.statusCode : ApiError → Nat
  | .invalidTimezone => 400
  | .qrNotFound => 404

/-- The response dict assembled at lines 681-694 of src/routes/qr.py
(schema QRAnalytics plus the extra keys the handler returns).
device_breakdown is carried as its three buckets. -/
structure AnalyticsResult where
  qr_code_id : Nat
  total_scans : Nat
  scans_today : Nat
  scans_this_week : Nat
  scans_this_month : Nat
  mobile : Nat
  desktop : Nat
  tablet : Nat
  mobile_percentage : ℚ
  top_countries : List (String × Nat)
  top_cities : List ((String × Option String) × Nat)
  peak_hour : Option Nat
  hourly_breakdown : List (Nat × Nat)
  recent_scans : List Scan
deriving DecidableEq

/-- Lines 532-694 of src/routes/qr.py after the guards: the aggregation
body of get_qr_analytics.  utc_now is the reference instant captured once;
off the resolved zone offset. -/
def buildAnalytics (store : List Scan) (qr_id : Nat) (time_range : String)
    (start_date end_date : Option Int) (off : Int) (utc_now : Micros) :
    AnalyticsResult :=
  let local_now := utc_now + off
  let w := resolveWindow time_range start_date end_date off local_now
  let scans := filteredScans store qr_id w.1 w.2
  let utc_today_start := localMidnight local_now - off
  let hc := groupCounts (scans.map (fun s => localHour off s.scanned_at))
  { qr_code_id := qr_id
    total_scans := scans.length
    scans_today :=
      (scans.filter (fun s => decide (utc_today_start ≤ s.scanned_at))).length
    scans_this_week :=
      (scans.filter (fun s => decide (utc_now - 7 * usPerDay ≤ s.scanned_at))).length
    scans_this_month :=
      (scans.filter (fun s => decide (utc_now - 30 * usPerDay ≤ s.scanned_at))).length
    mobile := deviceCount scans "Mobile"
    desktop := deviceCount scans "Desktop"
    tablet := deviceCount scans "Tablet"
    mobile_percentage := mobilePercentage (deviceCount scans "Mobile") scans.length
    top_countries := topCountries scans
    top_cities := topCities scans
    peak_hour := pyMaxKey hc
    hourly_breakdown := hourlyBreakdown hc
    recent_scans := recentScans scans }

/-- Lines 493-700 of src/routes/qr.py: timezone validation, then the
ownership guard (SELECT QRCode WHERE id = qr_id AND created_by = user_id,
404 when absent), then the aggregation body.  tzOffset is the outcome of
ZoneInfo resolution of the timezone query parameter. -/
def get_qr_analytics (qrdb : List QRCode) (store : List Scan)
    (user_id qr_id : Nat) (time_range : String)
    (start_date end_date : Option Int) (tzOffset : Option Int)
    (utc_now : Micros) : Except ApiError AnalyticsResult :=
  match tzOffset with
  | none => .error .invalidTimezone
  | some off =>
    match qrdb.find? (fun q => q.id == qr_id && q.created_by == user_id) with
    | none => .error .qrNotFound
    | some _ =>
        .ok (buildAnalytics store qr_id time_range start_date end_date off utc_now)

/-- Geographic lookup fields stored on an ingested event. -/
structure LocationData where
  country : Option String
  city : Option String
  region : Option String
deriving DecidableEq

/-- Outcome of the outbound HTTP geolocation request, as observed by the
handler code: either the client raised (network failure or timeout), or a
response arrived with a status code and the JSON fields the handler reads.
none models an absent JSON key. -/
inductive GeoOutcome where
  | netFailure
  | httpResp (status : Nat) (countryName city locality principalSubdivision :
      Option String)
deriving DecidableEq

/-- Python or on optional strings: the left operand wins unless it is
falsy (absent or the empty string). -/
def pyOrStr (a b : Option String) : Option String :=
  if a = none ∨ a = some "" then b else a

/-- Lines 111-139 of src/utils.py: reverse geocoding of GPS coordinates.
A 200 response yields the JSON fields as they are (possibly absent); any
other status falls through to the final all-Unknown return, as does an
exception inside the request. -/
def get_location_from_gps (resp : GeoOutcome) : LocationData :=
  match resp with
  | .netFailure => ⟨some "Unknown", some "Unknown", some "Unknown"⟩
  | .httpResp status cn c loc ps =>
      if status == 200 then ⟨cn, pyOrStr (pyOrStr c loc) ps, ps⟩
      else ⟨some "Unknown", some "Unknown", some "Unknown"⟩

/-- Outcome of the ip-api.com request read by get_location_from_ip:
statusField is the JSON status string of the body. -/
inductive IpOutcome where
  | netFailure
  | httpResp (status : Nat) (statusField : Option String)
      (country city regionName : Option String)
deriving DecidableEq

/-- Lines 145-177 of src/utils.py: IP geolocation with the localhost and
private-network guard; only a 200 response whose body reports success
yields the JSON fields, everything else degrades to all-Unknown. -/
def get_location_from_ip (ip_address : Option String) (resp : IpOutcome) :
    LocationData :=
  match ip_address with
  | none => ⟨some "Local", some "Localhost", some "Local Network"⟩
  | some ip =>
      if ip = "" ∨ ip = "127.0.0.1" ∨ ip.startsWith "192.168" then
        ⟨some "Local", some "Localhost", some "Local Network"⟩
      else
        match resp with
        | .netFailure => ⟨some "Unknown", some "Unknown", some "Unknown"⟩
        | .httpResp status statusField c ci re =>
            if status == 200 && statusField == some "success" then ⟨c, ci, re⟩
            else ⟨some "Unknown", some "Unknown", some "Unknown"⟩

/-- Leading-match test: the first list starts the second. -/
def strPre : List Char → List Char → Bool
  | [], _ => true
  | _ :: _, [] => false
  | c :: p, d :: s => c == d && strPre p s

/-- Occurrence of p at any position of the second list. -/
def listContains (p : List Char) : List Char → Bool
  | [] => strPre p []
  | c :: t => strPre p (c :: t) || listContains p t

/-- Python substring membership test, pat in s. -/
def strContains (s pat : String) : Bool :=
  listContains pat.toList s.toList

/-- ASCII lowercase of one character (user agents are ASCII). -/
def charLower (c : Char) : Char :=
  if 'A' ≤ c ∧ c ≤ 'Z' then Char.ofNat (c.toNat + 32) else c

/-- user_agent.lower() on ASCII input. -/
def pyLower (s : String) : String := String.mk (s.toList.map charLower)

/-- Lines 12-20 of src/utils.py: the device_type field of
parse_device_info, over the lowercased user agent. -/
def parse_device_type (user_agent : String) : String :=
  let ua := pyLower user_agent
  if strContains ua "mobile" || strContains ua "android" || strContains ua "iphone"
    then "Mobile"
  else if strContains ua "tablet" || strContains ua "ipad" then "Tablet"
  else "Desktop"

/-- Outcome of GET /r/code: an HTTPException with a status and detail, or
the GPS permission page wired to a QR id and target URL. -/
inductive RedirectOutcome where
  | httpError (status : Nat) (detail : String)
  | gpsPage (qr_id : Nat) (target_url : String)
deriving DecidableEq

/-- Lines 19-43 of src/routes/public.py: look the code up (the code column
is unique, so one_or_none is find?), 404 when absent, 410 when the row is
inactive, otherwise serve the GPS permission page. -/
def redirect_qr (qrdb : List QRCode) (code : String) : RedirectOutcome :=
  match qrdb.find? (fun q => q.code == code) with
  | none => .httpError 404 ("QR code " ++ code ++ " not found")
  | some q =>
      if !q.is_active then .httpError 410 "This QR code has been deactivated"
      else .gpsPage q.id q.target_url

/-- JSON body of POST /api/scan-log as read by log_scan. -/
structure ScanLogRequest where
  qr_code_id : Nat
  latitude : Option ℚ
  longitude : Option ℚ
  user_agent : String
deriving DecidableEq

/-- Python truthiness of an optional JSON number: absent and zero are
falsy. -/
def pyTruthyNum (x : Option ℚ) : Bool :=
  match x with
  | none => false
  | some v => v != 0

/-- Lines 163-217 of src/routes/public.py: ingest one scan event.  No
QRCode lookup and no is_active check occur: the row is appended for
whatever qr_code_id the body carries.  On the GPS branch the helper is
consulted and the event is committed; on the fallback branch the source
calls get_location_from_gps(ip_address) with its second required argument
missing, the TypeError is caught by the enclosing handler, and no row is
committed (status error).  newId and now model the store-assigned primary
key and the server_default now() timestamp. -/
def log_scan (store : List Scan) (req : ScanLogRequest) (gpsResp : GeoOutcome)
    (newId : Nat) (now : Micros) : List Scan × String :=
  if pyTruthyNum req.latitude && pyTruthyNum req.longitude then
    let loc := get_location_from_gps gpsResp
    (store ++
      [{ id := newId
         qr_code_id := req.qr_code_id
         scanned_at := now
         device_type := parse_device_type req.user_agent
         country := loc.country
         city := loc.city
         region := loc.region }], "success")
  else
    (store, "error")

/-- Modelled from the spec, section 4.2: the paginated raw-event slice the
spec promises, events within the window ordered newest first, sliced by
page and page_size.  Stated only to compare against the behaviour of the
source, which exposes no such pagination. -/
def specPaginatedEvents (sorted : List Scan) (page page_size : Nat) :
    List Scan :=
  ((sorted.drop ((page - 1) * page_size)).take page_size)

/-- Modelled from the spec, section 4.2:
total_pages = ceil(filtered_total / page_size), minimum 1. -/
def specTotalPages (filtered_total page_size : Nat) : Nat :=
  max 1 ((filtered_total + page_size - 1) / page_size)

/-- The filtered event subset of one analytics call: the events of the
resource inside the resolved window.  Definitionally the subset every
aggregate of buildAnalytics is computed over. -/
def windowScans (store : List Scan) (qr_id : Nat) (time_range : String)
    (start_date end_date : Option Int) (off : Int) (utc_now : Micros) :
    List Scan :=
  filteredScans store qr_id
    (resolveWindow time_range start_date end_date off (utc_now + off)).1
    (resolveWindow time_range start_date end_date off (utc_now + off)).2

/-- Concrete QR row used by the witnesses and counterexamples. -/
def demoQr : QRCode :=
  { id := 1, code := "promo", target_url := "https://example.com",
    created_by := 1, is_active := true }

/-- Concrete reference instant: noon of day 1000, zone offset 0. -/
def demoNow : Micros := 1000 * usPerDay + 12 * usPerHour

/-- Event two days before demoNow. -/
def demoScanOld : Scan :=
  { id := 1, qr_code_id := 1, scanned_at := demoNow - 2 * usPerDay,
    device_type := "Mobile", country := none, city := none, region := none }

/-- Event at local hour 3 of the demo day. -/
def demoScanH3 : Scan :=
  { id := 1, qr_code_id := 1, scanned_at := 1000 * usPerDay + 3 * usPerHour,
    device_type := "Mobile", country := none, city := none, region := none }

/-- Event at local hour 2 of the demo day, stored after demoScanH3. -/
def demoScanH2 : Scan :=
  { id := 2, qr_code_id := 1, scanned_at := 1000 * usPerDay + 2 * usPerHour,
    device_type := "Desktop", country := none, city := none, region := none }

/-- Eleven in-window events of the demo resource at distinct instants. -/
def demoStore11 : List Scan :=
  (List.range 11).map (fun i =>
    { id := i + 1, qr_code_id := 1,
      scanned_at := demoNow - (i : Int) * usPerHour,
      device_type := "Mobile", country := none, city := none, region := none })

/-- Deactivated QR row. -/
def inactiveQr : QRCode :=
  { id := 5, code := "dead", target_url := "https://example.com/d",
    created_by := 1, is_active := false }

/-- Event whose geographic fields degraded to the literal Unknown. -/
def demoUnknownScan : Scan :=
  { id := 1, qr_code_id := 1, scanned_at := demoNow,
    device_type := "Mobile", country := some "Unknown",
    city := some "Unknown", region := some "Unknown" }

/-- Scan-log request with GPS coordinates, aimed at the inactive QR. -/
def demoReqGps : ScanLogRequest :=
  { qr_code_id := 5, latitude := some 10, longitude := some 20,
    user_agent := "Mozilla" }

/-- Scan-log request without GPS coordinates (IP-fallback path). -/
def demoReqNoGps : ScanLogRequest :=
  { qr_code_id := 5, latitude := none, longitude := none,
    user_agent := "ua" }

/-- Row the scan-log endpoint appends for demoReqGps on a failed lookup. -/
def demoLoggedScan : Scan :=
  { id := 1, qr_code_id := 5, scanned_at := demoNow,
    device_type := "Desktop", country := some "Unknown",
    city := some "Unknown", region := some "Unknown" }

/-- Event of the demo resource dated one day after the reference instant. -/
def demoFutureScan : Scan :=
  { id := 1, qr_code_id := 1, scanned_at := demoNow + usPerDay,
    device_type := "Mobile", country := none, city := none, region := none }

theorem lookupCount_bump {α : Type} [DecidableEq α] (d : List (α × Nat))
    (k k2 : α) :
    lookupCount (bump d k) k2 = lookupCount d k2 + (if k = k2 then 1 else 0) := by
  induction d with
  | nil => by_cases h : k = k2 <;> simp [bump, lookupCount, h]
  | cons hd tl ih =>
      obtain ⟨a, n⟩ := hd
      by_cases hak : a = k
      · subst hak
        by_cases h2 : a = k2 <;> simp [bump, lookupCount, h2]
      · by_cases h2 : a = k2
        · subst h2
          have hkk : ¬ k = a := fun h => hak h.symm
          simp [bump, lookupCount, hak, hkk]
        · simp [bump, lookupCount, hak, h2, ih]

theorem lookupCount_foldl_bump {α : Type} [DecidableEq α] (l : List α)
    (d : List (α × Nat)) (k : α) :
    lookupCount (l.foldl bump d) k = lookupCount d k + l.count k := by
  induction l generalizing d with
  | nil => simp
  | cons x t ih =>
      rw [List.foldl_cons, ih, lookupCount_bump, List.count_cons]
      simp only [beq_iff_eq]
      rcases eq_or_ne x k with h | h
      · subst h; simp; omega
      · simp [h, Ne.symm h]

theorem lookupCount_groupCounts {α : Type} [DecidableEq α] (l : List α)
    (k : α) : lookupCount (groupCounts l) k = l.count k := by
  simpa [groupCounts, lookupCount] using lookupCount_foldl_bump l [] k

theorem keys_bump {α : Type} [DecidableEq α] (d : List (α × Nat)) (k : α) :
    (bump d k).map Prod.fst =
      if k ∈ d.map Prod.fst then d.map Prod.fst else d.map Prod.fst ++ [k] := by
  induction d with
  | nil => simp [bump]
  | cons hd tl ih =>
      obtain ⟨a, n⟩ := hd
      by_cases hak : a = k
      · subst hak
        simp [bump]
      · have hka : ¬ k = a := fun h => hak h.symm
        by_cases hmem : k ∈ tl.map Prod.fst <;>
          simp [bump, hak, hka, hmem, ih]

theorem keys_bump_nodup {α : Type} [DecidableEq α] (d : List (α × Nat))
    (k : α) (h : (d.map Prod.fst).Nodup) :
    ((bump d k).map Prod.fst).Nodup := by
  rw [keys_bump]
  by_cases hmem : k ∈ d.map Prod.fst
  · simpa [hmem] using h
  · simp only [hmem, if_false]
    exact List.Nodup.append h (List.nodup_singleton k)
      (fun a ha hb => hmem ((List.mem_singleton.mp hb) ▸ ha))

theorem keys_bump_subset {α : Type} [DecidableEq α] (d : List (α × Nat))
    (k x : α) (h : x ∈ (bump d k).map Prod.fst) :
    x ∈ d.map Prod.fst ∨ x = k := by
  rw [keys_bump] at h
  by_cases hmem : k ∈ d.map Prod.fst
  · rw [if_pos hmem] at h; exact Or.inl h
  · rw [if_neg hmem] at h
    rcases List.mem_append.mp h with h1 | h1
    · exact Or.inl h1
    · exact Or.inr (List.mem_singleton.mp h1)

theorem keys_foldl_bump_nodup {α : Type} [DecidableEq α] (l : List α)
    (d : List (α × Nat)) (h : (d.map Prod.fst).Nodup) :
    ((l.foldl bump d).map Prod.fst).Nodup := by
  induction l generalizing d with
  | nil => simpa using h
  | cons x t ih => exact ih (bump d x) (keys_bump_nodup d x h)

theorem groupCounts_keys_nodup {α : Type} [DecidableEq α] (l : List α) :
    ((groupCounts l).map Prod.fst).Nodup :=
  keys_foldl_bump_nodup l [] (by simp)

theorem keys_foldl_bump_subset {α : Type} [DecidableEq α] (l : List α)
    (d : List (α × Nat)) (x : α) (h : x ∈ (l.foldl bump d).map Prod.fst) :
    x ∈ d.map Prod.fst ∨ x ∈ l := by
  induction l generalizing d with
  | nil => exact Or.inl h
  | cons y t ih =>
      rw [List.foldl_cons] at h
      rcases ih (bump d y) h with hh | hh
      · rcases keys_bump_subset d y x hh with h1 | h1
        · exact Or.inl h1
        · exact Or.inr (h1 ▸ List.mem_cons_self y t)
      · exact Or.inr (List.mem_cons_of_mem y hh)

theorem groupCounts_keys_subset {α : Type} [DecidableEq α] (l : List α)
    (x : α) (h : x ∈ (groupCounts l).map Prod.fst) : x ∈ l := by
  rcases keys_foldl_bump_subset l [] x h with hh | hh
  · exact absurd hh (by simp)
  · exact hh

theorem lookupCount_eq_of_mem {α : Type} [DecidableEq α]
    (d : List (α × Nat)) (k : α) (v : Nat)
    (hnd : (d.map Prod.fst).Nodup) (hm : (k, v) ∈ d) :
    lookupCount d k = v := by
  induction d with
  | nil => simp at hm
  | cons hd tl ih =>
      obtain ⟨a, n⟩ := hd
      simp only [List.map_cons] at hnd
      rcases List.mem_cons.mp hm with he | ht
      · rw [Prod.mk.injEq] at he
        obtain ⟨hk, hv⟩ := he
        subst hk; subst hv
        simp [lookupCount]
      · have hknd : (tl.map Prod.fst).Nodup := (List.nodup_cons.mp hnd).2
        have hka : ¬ a = k := by
          intro h
          subst h
          exact (List.nodup_cons.mp hnd).1
            (by simpa using List.mem_map_of_mem Prod.fst ht)
        simp [lookupCount, hka, ih hknd ht]

theorem bump_ne_nil {α : Type} [DecidableEq α] (d : List (α × Nat)) (k : α) :
    bump d k ≠ [] := by
  cases d with
  | nil => simp [bump]
  | cons hd tl =>
      obtain ⟨a, n⟩ := hd
      by_cases h : a = k <;> simp [bump, h]

theorem foldl_bump_nil {α : Type} [DecidableEq α] (l : List α)
    (d : List (α × Nat)) (h : l.foldl bump d = []) : l = [] ∧ d = [] := by
  induction l generalizing d with
  | nil => exact ⟨rfl, by simpa using h⟩
  | cons x t ih =>
      rw [List.foldl_cons] at h
      exact absurd (ih (bump d x) h).2 (bump_ne_nil d x)

theorem groupCounts_nil_iff {α : Type} [DecidableEq α] (l : List α) :
    groupCounts l = [] ↔ l = [] := by
  constructor
  · intro h
    exact (foldl_bump_nil l [] h).1
  · intro h
    simp [h, groupCounts]

theorem foldl_maxStep_spec {α : Type} (l : List (α × Nat)) (x : α × Nat) :
    (l.foldl maxStep x) ∈ x :: l ∧ x.2 ≤ (l.foldl maxStep x).2 ∧
      ∀ y ∈ l, y.2 ≤ (l.foldl maxStep x).2 := by
  induction l generalizing x with
  | nil => simp
  | cons y t ih =>
      rw [List.foldl_cons]
      obtain ⟨hmem, hx, hall⟩ := ih (maxStep x y)
      have hstep_mem : maxStep x y = x ∨ maxStep x y = y := by
        unfold maxStep; split <;> simp
      have hxs : x.2 ≤ (maxStep x y).2 := by
        unfold maxStep; split <;> omega
      have hys : y.2 ≤ (maxStep x y).2 := by
        unfold maxStep; split <;> omega
      refine ⟨?_, le_trans hxs hx, ?_⟩
      · rcases List.mem_cons.mp hmem with he | ht
        · rcases hstep_mem with h | h <;> rw [he, h] <;> simp
        · simp [List.mem_cons, ht]
      · intro z hz
        rcases List.mem_cons.mp hz with he | ht
        · subst he; exact le_trans hys hx
        · exact hall z ht

theorem pyMaxPair_spec {α : Type} (d : List (α × Nat)) (m : α × Nat)
    (h : pyMaxPair d = some m) : m ∈ d ∧ ∀ y ∈ d, y.2 ≤ m.2 := by
  cases d with
  | nil => simp [pyMaxPair] at h
  | cons x t =>
      simp only [pyMaxPair, Option.some.injEq] at h
      obtain ⟨hmem, hx, hall⟩ := foldl_maxStep_spec t x
      subst h
      refine ⟨hmem, ?_⟩
      intro y hy
      rcases List.mem_cons.mp hy with he | ht
      · exact he ▸ hx
      · exact hall y ht

theorem pyMaxPair_none_iff {α : Type} (d : List (α × Nat)) :
    pyMaxPair d = none ↔ d = [] := by
  cases d <;> simp [pyMaxPair]

theorem localHour_lt (off : Int) (t : Micros) : localHour off t < 24 := by
  unfold localHour
  have h1 : (0:Int) ≤ ((t + off).fdiv usPerHour).emod 24 :=
    Int.emod_nonneg _ (by decide)
  have h2 : ((t + off).fdiv usPerHour).emod 24 < 24 :=
    Int.emod_lt_of_pos _ (by decide)
  omega

theorem sum_map_range (n : ℕ) (g : ℕ → ℕ) :
    ((List.range n).map g).sum = ∑ h ∈ Finset.range n, g h := by
  induction n with
  | zero => simp
  | succ m ih => rw [List.range_succ]; simp [Finset.sum_range_succ, ih]

theorem sum_countP_buckets {β : Type} (n : ℕ) (l : List β) (f : β → ℕ)
    (hf : ∀ b ∈ l, f b < n) :
    (∑ h ∈ Finset.range n, l.countP (fun b => f b == h)) = l.length := by
  induction l with
  | nil => simp
  | cons b t ih =>
      have hb : f b ∈ Finset.range n := by
        simpa using hf b (List.mem_cons_self b t)
      have ht : ∀ x ∈ t, f x < n := fun x hx => hf x (List.mem_cons_of_mem b hx)
      simp only [List.countP_cons]
      rw [Finset.sum_add_distrib, ih ht]
      have hone : (∑ h ∈ Finset.range n,
          (if (fun x => f x == h) b = true then 1 else 0)) = 1 := by
        simp only [beq_iff_eq]
        rw [Finset.sum_ite_eq]
        simp [hb]
      rw [hone]
      simp

theorem get_qr_analytics_ok {qrdb : List QRCode} {store : List Scan}
    {uid qid : Nat} {tr : String} {sd ed : Option Int} {off : Int}
    {now : Micros} {r : AnalyticsResult}
    (h : get_qr_analytics qrdb store uid qid tr sd ed (some off) now =
      Except.ok r) :
    r = buildAnalytics store qid tr sd ed off now := by
  simp only [get_qr_analytics] at h
  cases hf : qrdb.find? (fun q => q.id == qid && q.created_by == uid) with
  | none => rw [hf] at h; cases h
  | some q => rw [hf] at h; exact (Except.ok.injEq .. ▸ h).symm

theorem pyRound1_zero : pyRound1 0 = 0 := by
  unfold pyRound1
  norm_num

theorem mobilePercentage_zero : mobilePercentage 0 0 = 0 := by
  unfold mobilePercentage
  rw [if_pos rfl]
  exact pyRound1_zero

theorem buildAnalytics_total_scans (store : List Scan) (qid : Nat)
    (tr : String) (sd ed : Option Int) (off : Int) (now : Micros) :
    (buildAnalytics store qid tr sd ed off now).total_scans =
      (windowScans store qid tr sd ed off now).length := rfl

theorem buildAnalytics_scans_today (store : List Scan) (qid : Nat)
    (tr : String) (sd ed : Option Int) (off : Int) (now : Micros) :
    (buildAnalytics store qid tr sd ed off now).scans_today =
      ((windowScans store qid tr sd ed off now).filter
        (fun s => decide (localMidnight (now + off) - off ≤ s.scanned_at))).length :=
  rfl

theorem buildAnalytics_scans_this_week (store : List Scan) (qid : Nat)
    (tr : String) (sd ed : Option Int) (off : Int) (now : Micros) :
    (buildAnalytics store qid tr sd ed off now).scans_this_week =
      ((windowScans store qid tr sd ed off now).filter
        (fun s => decide (now - 7 * usPerDay ≤ s.scanned_at))).length := rfl

theorem buildAnalytics_scans_this_month (store : List Scan) (qid : Nat)
    (tr : String) (sd ed : Option Int) (off : Int) (now : Micros) :
    (buildAnalytics store qid tr sd ed off now).scans_this_month =
      ((windowScans store qid tr sd ed off now).filter
        (fun s => decide (now - 30 * usPerDay ≤ s.scanned_at))).length := rfl

theorem buildAnalytics_mobile (store : List Scan) (qid : Nat)
    (tr : String) (sd ed : Option Int) (off : Int) (now : Micros) :
    (buildAnalytics store qid tr sd ed off now).mobile =
      deviceCount (windowScans store qid tr sd ed off now) "Mobile" := rfl

theorem buildAnalytics_desktop (store : List Scan) (qid : Nat)
    (tr : String) (sd ed : Option Int) (off : Int) (now : Micros) :
    (buildAnalytics store qid tr sd ed off now).desktop =
      deviceCount (windowScans store qid tr sd ed off now) "Desktop" := rfl

theorem buildAnalytics_tablet (store : List Scan) (qid : Nat)
    (tr : String) (sd ed : Option Int) (off : Int) (now : Micros) :
    (buildAnalytics store qid tr sd ed off now).tablet =
      deviceCount (windowScans store qid tr sd ed off now) "Tablet" := rfl

theorem buildAnalytics_mobile_percentage (store : List Scan) (qid : Nat)
    (tr : String) (sd ed : Option Int) (off : Int) (now : Micros) :
    (buildAnalytics store qid tr sd ed off now).mobile_percentage =
      mobilePercentage (deviceCount (windowScans store qid tr sd ed off now) "Mobile")
        (windowScans store qid tr sd ed off now).length := rfl

theorem buildAnalytics_top_countries (store : List Scan) (qid : Nat)
    (tr : String) (sd ed : Option Int) (off : Int) (now : Micros) :
    (buildAnalytics store qid tr sd ed off now).top_countries =
      topCountries (windowScans store qid tr sd ed off now) := rfl

theorem buildAnalytics_top_cities (store : List Scan) (qid : Nat)
    (tr : String) (sd ed : Option Int) (off : Int) (now : Micros) :
    (buildAnalytics store qid tr sd ed off now).top_cities =
      topCities (windowScans store qid tr sd ed off now) := rfl

theorem buildAnalytics_peak_hour (store : List Scan) (qid : Nat)
    (tr : String) (sd ed : Option Int) (off : Int) (now : Micros) :
    (buildAnalytics store qid tr sd ed off now).peak_hour =
      pyMaxKey (groupCounts ((windowScans store qid tr sd ed off now).map
        (fun s => localHour off s.scanned_at))) := rfl

theorem buildAnalytics_hourly_breakdown (store : List Scan) (qid : Nat)
    (tr : String) (sd ed : Option Int) (off : Int) (now : Micros) :
    (buildAnalytics store qid tr sd ed off now).hourly_breakdown =
      hourlyBreakdown (groupCounts ((windowScans store qid tr sd ed off now).map
        (fun s => localHour off s.scanned_at))) := rfl

theorem buildAnalytics_recent_scans (store : List Scan) (qid : Nat)
    (tr : String) (sd ed : Option Int) (off : Int) (now : Micros) :
    (buildAnalytics store qid tr sd ed off now).recent_scans =
      recentScans (windowScans store qid tr sd ed off now) := rfl

/-- C5 (counterexample): the claim resolves the keyword all to an
unbounded window with both bounds absent, but the source always sets the
upper bound to the reference instant; concretely, with window all the
resolver returns an upper bound, and an event of the resource dated one
day after the reference instant is excluded from total_scans although an
unbounded window would count it. -/
theorem C5_counterexample :
    (resolveWindow "all" none none 0 demoNow).2 = some demoNow ∧
    (Except.map (fun r => r.total_scans)
      (get_qr_analytics [demoQr] [demoFutureScan] 1 1 "all" none none
        (some 0) demoNow)) = Except.ok 0 ∧
    ([demoFutureScan].filter (fun s => s.qr_code_id == 1)).length = 1 := by
  exact ⟨rfl, rfl, rfl⟩

/-- C5 (amended): explicit start and end dates take precedence over any
range keyword and give the window from local start-of-day to local
end-of-day converted to UTC; today resolves to local midnight of the
reference day up to the reference instant; 7days, 30days, 90days and year
resolve to the reference instant minus 7, 30, 90 and 365 days up to the
reference instant; and all resolves to a window with no lower bound whose
upper bound is the reference instant (the upper bound is present, not
absent as originally claimed). -/
theorem C5_amended (tr : String) (sd ed off : Int) (lnow : Micros) :
    resolveWindow tr (some sd) (some ed) off lnow =
      (some (sd * usPerDay - off),
        some (ed * usPerDay + (usPerDay - 1) - off)) ∧
    resolveWindow "today" none none off lnow =
      (some (localMidnight lnow - off), some (lnow - off)) ∧
    resolveWindow "7days" none none off lnow =
      (some (lnow - 7 * usPerDay - off), some (lnow - off)) ∧
    resolveWindow "30days" none none off lnow =
      (some (lnow - 30 * usPerDay - off), some (lnow - off)) ∧
    resolveWindow "90days" none none off lnow =
      (some (lnow - 90 * usPerDay - off), some (lnow - off)) ∧
    resolveWindow "year" none none off lnow =
      (some (lnow - 365 * usPerDay - off), some (lnow - off)) ∧
    resolveWindow "all" none none off lnow = (none, some (lnow - off)) := by
  exact ⟨rfl, rfl, rfl, rfl, rfl, rfl, rfl⟩

/-- C7: an unresolvable timezone name fails with the 400 validation error
and with nothing else consulted: the outcome is identical for every QR
table and every event store, so no ownership lookup and no aggregation
work happens. -/
theorem C7_invalid_timezone (qrdb qrdb2 : List QRCode)
    (store store2 : List Scan) (uid qid : Nat) (tr : String)
    (sd ed : Option Int) (now : Micros) :
    get_qr_analytics qrdb store uid qid tr sd ed none now =
      Except.error ApiError.invalidTimezone ∧
    ApiError.invalidTimezone.statusCode = 400 ∧
    get_qr_analytics qrdb store uid qid tr sd ed none now =
      get_qr_analytics qrdb2 store2 uid qid tr sd ed none now := by
  exact ⟨rfl, rfl, rfl⟩

/-- C6: with a valid timezone, when no row of the QR table carries both
the requested id and the requesting principal as creator (covering both a
missing resource and one owned by a different principal), the call fails
with the one uniform 404 not-found error, and the outcome is the same for
every event store: the guard runs before any event-store query. -/
theorem C6_ownership_guard (qrdb : List QRCode) (store store2 : List Scan)
    (uid qid : Nat) (tr : String) (sd ed : Option Int) (off : Int)
    (now : Micros)
    (hno : ∀ q ∈ qrdb, ¬(q.id = qid ∧ q.created_by = uid)) :
    get_qr_analytics qrdb store uid qid tr sd ed (some off) now =
      Except.error ApiError.qrNotFound ∧
    ApiError.qrNotFound.statusCode = 404 ∧
    get_qr_analytics qrdb store uid qid tr sd ed (some off) now =
      get_qr_analytics qrdb store2 uid qid tr sd ed (some off) now := by
  have hf : qrdb.find? (fun q => q.id == qid && q.created_by == uid) = none := by
    rw [List.find?_eq_none]
    intro q hq
    simpa using hno q hq
  refine ⟨?_, rfl, ?_⟩
  · simp [get_qr_analytics, hf]
  · simp [get_qr_analytics, hf]

/-- C6 witness: a concrete table whose only QR with the requested id is
owned by principal 2, queried by principal 1. -/
theorem C6_ownership_guard_witness :
    get_qr_analytics
        [{ id := 1, code := "promo", target_url := "https://example.com",
           created_by := 2, is_active := true }] [demoScanOld] 1 1 "30days"
        none none (some 0) demoNow = Except.error ApiError.qrNotFound ∧
    ApiError.qrNotFound.statusCode = 404 ∧
    get_qr_analytics
        [{ id := 1, code := "promo", target_url := "https://example.com",
           created_by := 2, is_active := true }] [demoScanOld] 1 1 "30days"
        none none (some 0) demoNow =
      get_qr_analytics
        [{ id := 1, code := "promo", target_url := "https://example.com",
           created_by := 2, is_active := true }] [] 1 1 "30days"
        none none (some 0) demoNow :=
  C6_ownership_guard _ _ _ _ _ _ _ _ _ _ (by decide)

/-- C1 (counterexample): with the window keyword today, an event two days
old lies inside the fixed trailing 30-day window but outside the selected
window.  The source reports scans_this_month = 0, while the claim demands
the window-independent trailing count, which is 1 here: the headline
counters are re-filtered by the selected window. -/
theorem C1_counterexample :
    (Except.map (fun r => r.scans_this_month)
      (get_qr_analytics [demoQr] [demoScanOld] 1 1 "today" none none
        (some 0) demoNow)) = Except.ok 0 ∧
    (filteredScans [demoScanOld] 1 (some (demoNow - 30 * usPerDay))
        (some demoNow)).length = 1 := by
  exact ⟨rfl, rfl⟩

/-- C1 (amended): scans_today, scans_this_week and scans_this_month count
the events in the intersection of the selected window and the respective
fixed trailing window (local midnight of the reference instant to now, now
minus 7 days, now minus 30 days, all against the one reference instant):
the trailing-window counters are additionally restricted by the selected
window filter. -/
theorem C1_amended (qrdb : List QRCode) (store : List Scan) (uid qid : Nat)
    (tr : String) (sd ed : Option Int) (off : Int) (now : Micros)
    (r : AnalyticsResult)
    (h : get_qr_analytics qrdb store uid qid tr sd ed (some off) now =
      Except.ok r) :
    r.scans_today = (store.filter (fun s =>
        decide (localMidnight (now + off) - off ≤ s.scanned_at) &&
        matchesFilters qid (resolveWindow tr sd ed off (now + off)).1
          (resolveWindow tr sd ed off (now + off)).2 s)).length ∧
    r.scans_this_week = (store.filter (fun s =>
        decide (now - 7 * usPerDay ≤ s.scanned_at) &&
        matchesFilters qid (resolveWindow tr sd ed off (now + off)).1
          (resolveWindow tr sd ed off (now + off)).2 s)).length ∧
    r.scans_this_month = (store.filter (fun s =>
        decide (now - 30 * usPerDay ≤ s.scanned_at) &&
        matchesFilters qid (resolveWindow tr sd ed off (now + off)).1
          (resolveWindow tr sd ed off (now + off)).2 s)).length := by
  obtain rfl := get_qr_analytics_ok h
  refine ⟨?_, ?_, ?_⟩
  · rw [buildAnalytics_scans_today]
    simp [windowScans, filteredScans, List.filter_filter]
  · rw [buildAnalytics_scans_this_week]
    simp [windowScans, filteredScans, List.filter_filter]
  · rw [buildAnalytics_scans_this_month]
    simp [windowScans, filteredScans, List.filter_filter]

/-- C1 amended witness: the demo input of the counterexample indeed
satisfies the intersection semantics. -/
theorem C1_amended_witness :
    (buildAnalytics [demoScanOld] 1 "today" none none 0 demoNow).scans_today =
      (([demoScanOld]).filter (fun s =>
        decide (localMidnight (demoNow + 0) - 0 ≤ s.scanned_at) &&
        matchesFilters 1 (resolveWindow "today" none none 0 (demoNow + 0)).1
          (resolveWindow "today" none none 0 (demoNow + 0)).2 s)).length ∧
    (buildAnalytics [demoScanOld] 1 "today" none none 0 demoNow).scans_this_week =
      (([demoScanOld]).filter (fun s =>
        decide (demoNow - 7 * usPerDay ≤ s.scanned_at) &&
        matchesFilters 1 (resolveWindow "today" none none 0 (demoNow + 0)).1
          (resolveWindow "today" none none 0 (demoNow + 0)).2 s)).length ∧
    (buildAnalytics [demoScanOld] 1 "today" none none 0 demoNow).scans_this_month =
      (([demoScanOld]).filter (fun s =>
        decide (demoNow - 30 * usPerDay ≤ s.scanned_at) &&
        matchesFilters 1 (resolveWindow "today" none none 0 (demoNow + 0)).1
          (resolveWindow "today" none none 0 (demoNow + 0)).2 s)).length :=
  C1_amended [demoQr] [demoScanOld] 1 1 "today" none none 0 demoNow _ rfl

/-- C8: with a valid timezone and an owned resource, a window containing
zero matching events still succeeds and returns all counters 0, all three
device buckets 0, mobile_percentage 0 (no division by zero), empty top
lists, the all-zero dense 24-entry hour histogram, null peak_hour and an
empty event list. -/
theorem C8_zero_events (qrdb : List QRCode) (store : List Scan)
    (uid qid : Nat) (tr : String) (sd ed : Option Int) (off : Int)
    (now : Micros) (q : QRCode)
    (hq : qrdb.find? (fun q2 => q2.id == qid && q2.created_by == uid) =
      some q)
    (hz : windowScans store qid tr sd ed off now = []) :
    ∃ r, get_qr_analytics qrdb store uid qid tr sd ed (some off) now =
        Except.ok r ∧
      r.total_scans = 0 ∧ r.scans_today = 0 ∧ r.scans_this_week = 0 ∧
      r.scans_this_month = 0 ∧ r.mobile = 0 ∧ r.desktop = 0 ∧
      r.tablet = 0 ∧ r.mobile_percentage = 0 ∧ r.top_countries = [] ∧
      r.top_cities = [] ∧
      r.hourly_breakdown = (List.range 24).map (fun hh => (hh, 0)) ∧
      r.peak_hour = none ∧ r.recent_scans = [] := by
  refine ⟨buildAnalytics store qid tr sd ed off now, ?_, ?_, ?_, ?_, ?_,
    ?_, ?_, ?_, ?_, ?_, ?_, ?_, ?_, ?_⟩
  · simp [get_qr_analytics, hq]
  · rw [buildAnalytics_total_scans, hz]; rfl
  · rw [buildAnalytics_scans_today, hz]; rfl
  · rw [buildAnalytics_scans_this_week, hz]; rfl
  · rw [buildAnalytics_scans_this_month, hz]; rfl
  · rw [buildAnalytics_mobile, hz]; rfl
  · rw [buildAnalytics_desktop, hz]; rfl
  · rw [buildAnalytics_tablet, hz]; rfl
  · rw [buildAnalytics_mobile_percentage, hz]; exact mobilePercentage_zero
  · rw [buildAnalytics_top_countries, hz]; rfl
  · rw [buildAnalytics_top_cities, hz]; rfl
  · rw [buildAnalytics_hourly_breakdown, hz]; rfl
  · rw [buildAnalytics_peak_hour, hz]; rfl
  · rw [buildAnalytics_recent_scans, hz]; rfl

/-- C8 witness: the demo store has one event, two days outside the today
window, so the window is empty while the store is not. -/
theorem C8_zero_events_witness :
    ∃ r, get_qr_analytics [demoQr] [demoScanOld] 1 1 "today" none none
        (some 0) demoNow = Except.ok r ∧
      r.total_scans = 0 ∧ r.scans_today = 0 ∧ r.scans_this_week = 0 ∧
      r.scans_this_month = 0 ∧ r.mobile = 0 ∧ r.desktop = 0 ∧
      r.tablet = 0 ∧ r.mobile_percentage = 0 ∧ r.top_countries = [] ∧
      r.top_cities = [] ∧
      r.hourly_breakdown = (List.range 24).map (fun hh => (hh, 0)) ∧
      r.peak_hour = none ∧ r.recent_scans = [] :=
  C8_zero_events [demoQr] [demoScanOld] 1 1 "today" none none 0 demoNow
    demoQr rfl rfl

/-- C2: the hourly breakdown of a successful call is the dense 24-entry
sequence, the entry at each local hour counting exactly the in-window
events whose UTC timestamp converted into the target timezone falls in
that hour, and the 24 counts sum to total_scans: every in-window event
lands in exactly one bucket. -/
theorem C2_hourly_breakdown (qrdb : List QRCode) (store : List Scan)
    (uid qid : Nat) (tr : String) (sd ed : Option Int) (off : Int)
    (now : Micros) (r : AnalyticsResult)
    (h : get_qr_analytics qrdb store uid qid tr sd ed (some off) now =
      Except.ok r) :
    r.hourly_breakdown = (List.range 24).map (fun hh =>
      (hh, (windowScans store qid tr sd ed off now).countP
        (fun s => localHour off s.scanned_at == hh))) ∧
    (r.hourly_breakdown.map Prod.snd).sum = r.total_scans := by
  obtain rfl := get_qr_analytics_ok h
  have hpoint : ∀ hh : Nat,
      lookupCount (groupCounts ((windowScans store qid tr sd ed off now).map
        (fun s => localHour off s.scanned_at))) hh =
      (windowScans store qid tr sd ed off now).countP
        (fun s => localHour off s.scanned_at == hh) := by
    intro hh
    rw [lookupCount_groupCounts, List.count_eq_countP, List.countP_map]
    rfl
  constructor
  · rw [buildAnalytics_hourly_breakdown]
    unfold hourlyBreakdown
    congr 1
    funext hh
    rw [hpoint hh]
  · rw [buildAnalytics_hourly_breakdown, buildAnalytics_total_scans]
    unfold hourlyBreakdown
    rw [List.map_map]
    have hcomp : (Prod.snd ∘ fun hh : Nat =>
        (hh, lookupCount (groupCounts
          ((windowScans store qid tr sd ed off now).map
            (fun s => localHour off s.scanned_at))) hh)) =
        fun hh : Nat => lookupCount (groupCounts
          ((windowScans store qid tr sd ed off now).map
            (fun s => localHour off s.scanned_at))) hh := rfl
    rw [hcomp]
    have hfun : (fun hh : Nat => lookupCount (groupCounts
        ((windowScans store qid tr sd ed off now).map
          (fun s => localHour off s.scanned_at))) hh) =
        fun hh : Nat => (windowScans store qid tr sd ed off now).countP
          (fun s => localHour off s.scanned_at == hh) := funext hpoint
    rw [hfun, sum_map_range]
    exact sum_countP_buckets 24 (windowScans store qid tr sd ed off now)
      (fun s => localHour off s.scanned_at)
      (fun b _ => localHour_lt off b.scanned_at)

/-- C2 witness: the two demo events at local hours 3 and 2 populate the
histogram entries 3 and 2 and their counts sum to total_scans. -/
theorem C2_hourly_breakdown_witness :
    (buildAnalytics [demoScanH3, demoScanH2] 1 "today" none none 0
        demoNow).hourly_breakdown =
      (List.range 24).map (fun hh =>
        (hh, (windowScans [demoScanH3, demoScanH2] 1 "today" none none 0
          demoNow).countP (fun s => localHour 0 s.scanned_at == hh))) ∧
    ((buildAnalytics [demoScanH3, demoScanH2] 1 "today" none none 0
        demoNow).hourly_breakdown.map Prod.snd).sum =
      (buildAnalytics [demoScanH3, demoScanH2] 1 "today" none none 0
        demoNow).total_scans :=
  C2_hourly_breakdown [demoQr] [demoScanH3, demoScanH2] 1 1 "today" none
    none 0 demoNow _ rfl

theorem lookupCount_eq_zero_of_not_mem {α : Type} [DecidableEq α]
    (d : List (α × Nat)) (k : α) (h : k ∉ d.map Prod.fst) :
    lookupCount d k = 0 := by
  induction d with
  | nil => rfl
  | cons hd tl ih =>
      obtain ⟨a, n⟩ := hd
      simp only [List.map_cons, List.mem_cons] at h
      push_neg at h
      have hka : ¬ a = k := fun hh => h.1 hh.symm
      simp [lookupCount, hka, ih h.2]

theorem pyMaxKey_groupCounts_none_iff {α : Type} [DecidableEq α]
    (l : List α) : pyMaxKey (groupCounts l) = none ↔ l = [] := by
  unfold pyMaxKey
  rw [Option.map_eq_none', pyMaxPair_none_iff, groupCounts_nil_iff]

theorem pyMaxKey_groupCounts_max {α : Type} [DecidableEq α] (l : List α)
    (k : α) (h : pyMaxKey (groupCounts l) = some k) :
    k ∈ l ∧ ∀ k2, l.count k2 ≤ l.count k := by
  unfold pyMaxKey at h
  rw [Option.map_eq_some'] at h
  obtain ⟨m, hm, hfst⟩ := h
  obtain ⟨hmem, hmax⟩ := pyMaxPair_spec _ m hm
  have hknd := groupCounts_keys_nodup l
  have hkmem : k ∈ (groupCounts l).map Prod.fst :=
    hfst ▸ List.mem_map_of_mem Prod.fst hmem
  refine ⟨groupCounts_keys_subset l k hkmem, ?_⟩
  intro k2
  have hkm : (k, m.2) ∈ groupCounts l := by
    rw [← hfst]
    exact hmem
  have hv : lookupCount (groupCounts l) k = m.2 :=
    lookupCount_eq_of_mem _ _ _ hknd hkm
  rw [← lookupCount_groupCounts l k2, ← lookupCount_groupCounts l k, hv]
  by_cases hmem2 : k2 ∈ (groupCounts l).map Prod.fst
  · obtain ⟨p, hp, hpe⟩ := List.mem_map.mp hmem2
    have hkp : (k2, p.2) ∈ groupCounts l := by
      rw [← hpe]
      exact hp
    rw [lookupCount_eq_of_mem _ _ _ hknd hkp]
    exact hmax p hp
  · rw [lookupCount_eq_zero_of_not_mem _ _ hmem2]
    exact Nat.zero_le _

theorem countP_eq_count_map {β α : Type} [DecidableEq α] (l : List β)
    (f : β → α) (x : α) :
    l.countP (fun b => f b == x) = (l.map f).count x := by
  rw [List.count_eq_countP, List.countP_map]
  rfl

/-- C3 (counterexample): two in-window events, stored at hour 3 first and
hour 2 second, tie at the maximal bucket count 1; the claim demands the
lowest tied hour, 2, but the source returns 3, because the Python max over
the hour dict keeps the first maximum in key insertion order, which is the
order hours first appear in the fetched rows, not ascending hour order. -/
theorem C3_counterexample :
    (get_qr_analytics [demoQr] [demoScanH3, demoScanH2] 1 1 "today" none
        none (some 0) demoNow).toOption.map
      (fun r => (r.peak_hour, r.hourly_breakdown.map Prod.snd)) =
      some (some 3,
        [0, 0, 1, 1, 0, 0, 0, 0, 0, 0, 0, 0,
          0, 0, 0, 0, 0, 0, 0, 0, 0, 0, 0, 0]) ∧
    (get_qr_analytics [demoQr] [demoScanH3, demoScanH2] 1 1 "today" none
        none (some 0) demoNow).toOption.map (fun r => r.peak_hour) ≠
      some (some 2) := by
  constructor
  · rfl
  · decide

/-- C3 (amended): peak_hour is null exactly when the window holds zero
events; otherwise it is a local hour below 24 whose bucket count is
maximal among all hours, but a tie between maximal buckets resolves to the
hour that first appears in the fetched event sequence (dict insertion
order), not to the lowest hour index. -/
theorem C3_amended (qrdb : List QRCode) (store : List Scan) (uid qid : Nat)
    (tr : String) (sd ed : Option Int) (off : Int) (now : Micros)
    (r : AnalyticsResult)
    (h : get_qr_analytics qrdb store uid qid tr sd ed (some off) now =
      Except.ok r) :
    (r.peak_hour = none ↔ windowScans store qid tr sd ed off now = []) ∧
    ∀ hh, r.peak_hour = some hh →
      hh < 24 ∧
      ∀ h2, (windowScans store qid tr sd ed off now).countP
          (fun s => localHour off s.scanned_at == h2) ≤
        (windowScans store qid tr sd ed off now).countP
          (fun s => localHour off s.scanned_at == hh) := by
  obtain rfl := get_qr_analytics_ok h
  simp only [buildAnalytics_peak_hour]
  constructor
  · rw [pyMaxKey_groupCounts_none_iff, List.map_eq_nil_iff]
  · intro hh hpk
    obtain ⟨hmem, hmax⟩ := pyMaxKey_groupCounts_max _ hh hpk
    constructor
    · obtain ⟨s, hs, hse⟩ := List.mem_map.mp hmem
      exact hse ▸ localHour_lt off s.scanned_at
    · intro h2
      rw [countP_eq_count_map, countP_eq_count_map]
      exact hmax h2

/-- C3 amended witness: on the demo input the peak hour is 3, it is below
24 and its bucket count is maximal. -/
theorem C3_amended_witness :
    ((buildAnalytics [demoScanH3, demoScanH2] 1 "today" none none 0
        demoNow).peak_hour = none ↔
      windowScans [demoScanH3, demoScanH2] 1 "today" none none 0 demoNow =
        []) ∧
    ∀ hh, (buildAnalytics [demoScanH3, demoScanH2] 1 "today" none none 0
        demoNow).peak_hour = some hh →
      hh < 24 ∧
      ∀ h2, (windowScans [demoScanH3, demoScanH2] 1 "today" none none 0
          demoNow).countP (fun s => localHour 0 s.scanned_at == h2) ≤
        (windowScans [demoScanH3, demoScanH2] 1 "today" none none 0
          demoNow).countP (fun s => localHour 0 s.scanned_at == hh) :=
  C3_amended [demoQr] [demoScanH3, demoScanH2] 1 1 "today" none none 0
    demoNow _ rfl

/-- C4 (counterexample): the endpoint exposes no pagination.  With 11
in-window events, the claim for page 1 and page_size 50 requires all 11
events (and total_pages 1), but the source returns exactly the 10 newest
events; the returned list differs from the spec slice. -/
theorem C4_counterexample :
    (get_qr_analytics [demoQr] demoStore11 1 1 "all" none none (some 0)
        demoNow).toOption.map (fun r => r.recent_scans.length) = some 10 ∧
    (specPaginatedEvents (List.insertionSort byNewest
        (windowScans demoStore11 1 "all" none none 0 demoNow)) 1 50).length
      = 11 ∧
    specTotalPages 11 50 = 1 ∧
    (get_qr_analytics [demoQr] demoStore11 1 1 "all" none none (some 0)
        demoNow).toOption.map (fun r => r.recent_scans) ≠
      some (specPaginatedEvents (List.insertionSort byNewest
        (windowScans demoStore11 1 "all" none none 0 demoNow)) 1 50) := by
  refine ⟨rfl, rfl, rfl, ?_⟩
  decide

/-- C4 (amended): the analytics result carries no pagination parameters
and no total_pages or filtered_scan_count; its event list is the fixed
newest-first prefix of the in-window events, truncated at 10: its length
is min 10 total_scans, it is ordered by timestamp descending, and every
listed event is an in-window event. -/
theorem C4_amended (qrdb : List QRCode) (store : List Scan) (uid qid : Nat)
    (tr : String) (sd ed : Option Int) (off : Int) (now : Micros)
    (r : AnalyticsResult)
    (h : get_qr_analytics qrdb store uid qid tr sd ed (some off) now =
      Except.ok r) :
    r.recent_scans.length = min 10 r.total_scans ∧
    List.Sorted byNewest r.recent_scans ∧
    ∀ s ∈ r.recent_scans, s ∈ windowScans store qid tr sd ed off now := by
  obtain rfl := get_qr_analytics_ok h
  simp only [buildAnalytics_recent_scans, buildAnalytics_total_scans]
  unfold recentScans
  refine ⟨?_, ?_, ?_⟩
  · rw [List.length_take, (List.perm_insertionSort byNewest _).length_eq]
  · exact (List.sorted_insertionSort byNewest _).sublist (List.take_sublist ..)
  · intro s hs
    exact (List.perm_insertionSort byNewest _).subset
      (List.take_subset _ _ hs)

/-- C4 amended witness: on the 11-event demo store the returned list has
length 10, is sorted newest first, and draws from the window. -/
theorem C4_amended_witness :
    (buildAnalytics demoStore11 1 "all" none none 0 demoNow).recent_scans.length
      = min 10 (buildAnalytics demoStore11 1 "all" none none 0
        demoNow).total_scans ∧
    List.Sorted byNewest
      (buildAnalytics demoStore11 1 "all" none none 0 demoNow).recent_scans ∧
    ∀ s ∈ (buildAnalytics demoStore11 1 "all" none none 0
        demoNow).recent_scans,
      s ∈ windowScans demoStore11 1 "all" none none 0 demoNow :=
  C4_amended [demoQr] demoStore11 1 1 "all" none none 0 demoNow _ rfl

/-- C9 (counterexample): the QR with id 5 is inactive, yet the public
scan-log endpoint appends a scan event for it and reports success: the
source of log_scan never consults the QR table, so is_active does not gate
this append path. -/
theorem C9_counterexample :
    inactiveQr.is_active = false ∧ demoReqGps.qr_code_id = inactiveQr.id ∧
    log_scan [] demoReqGps GeoOutcome.netFailure 1 demoNow =
      ([demoLoggedScan], "success") := by
  exact ⟨rfl, rfl, rfl⟩

/-- C9 (amended): only the redirect path enforces is_active: GET /r/code
answers 410 and serves no page for an inactive resource, while the public
scan-logging endpoint performs no is_active check and appends its event
(reporting success) regardless of the flag whenever GPS coordinates are
present. -/
theorem C9_amended (qrdb : List QRCode) (code : String) (q : QRCode)
    (hq : qrdb.find? (fun q2 => q2.code == code) = some q)
    (hinactive : q.is_active = false) (store : List Scan)
    (req : ScanLogRequest) (resp : GeoOutcome) (newId : Nat) (now : Micros)
    (hlat : pyTruthyNum req.latitude = true)
    (hlon : pyTruthyNum req.longitude = true) :
    redirect_qr qrdb code =
      RedirectOutcome.httpError 410 "This QR code has been deactivated" ∧
    (log_scan store req resp newId now).1.length = store.length + 1 ∧
    (log_scan store req resp newId now).2 = "success" := by
  refine ⟨?_, ?_, ?_⟩
  · unfold redirect_qr
    rw [hq]
    simp [hinactive]
  · simp [log_scan, hlat, hlon]
  · simp [log_scan, hlat, hlon]

/-- C9 amended witness: the inactive demo QR is refused by the redirect
path with 410, while a scan-log request for the same id appends an event
and succeeds. -/
theorem C9_amended_witness :
    redirect_qr [inactiveQr] "dead" =
      RedirectOutcome.httpError 410 "This QR code has been deactivated" ∧
    (log_scan [] demoReqGps GeoOutcome.netFailure 1 demoNow).1.length =
      ([] : List Scan).length + 1 ∧
    (log_scan [] demoReqGps GeoOutcome.netFailure 1 demoNow).2 =
      "success" :=
  C9_amended [inactiveQr] "dead" inactiveQr rfl rfl [] demoReqGps
    GeoOutcome.netFailure 1 demoNow (by decide) (by decide)

/-- C10 (counterexample): a geography lookup that comes back 200 with no
usable fields stores null country, city and region (not the literal
Unknown), and on the IP-fallback path (no GPS coordinates) the ingestion
aborts with an error and stores no event at all, because the source calls
the two-argument GPS helper with a single argument. -/
theorem C10_counterexample :
    get_location_from_gps (GeoOutcome.httpResp 200 none none none none) =
      LocationData.mk none none none ∧
    log_scan [] demoReqNoGps GeoOutcome.netFailure 1 demoNow =
      ([], "error") := by
  exact ⟨rfl, rfl⟩

/-- C10 (amended): on the GPS path, when the lookup raises (failure or
timeout) or answers with a non-200 status, the stored country, city and
region are the literal string Unknown, never null; such events pass the
non-null country and city filters, so the Unknown bucket can appear in
top_countries and top_cities.  But a 200 answer with missing fields yields
null fields, and the IP-fallback path stores nothing at all. -/
theorem C10_amended (status : Nat) (cn c loc ps : Option String)
    (hs : status ≠ 200) :
    get_location_from_gps GeoOutcome.netFailure =
      { country := some "Unknown", city := some "Unknown",
        region := some "Unknown" } ∧
    get_location_from_gps (GeoOutcome.httpResp status cn c loc ps) =
      { country := some "Unknown", city := some "Unknown",
        region := some "Unknown" } ∧
    topCountries [demoUnknownScan] = [("Unknown", 1)] ∧
    topCities [demoUnknownScan] = [(("Unknown", some "Unknown"), 1)] := by
  refine ⟨rfl, ?_, rfl, rfl⟩
  simp [get_location_from_gps, hs]

/-- C10 amended witness: a 500 answer degrades to the literal Unknown
fields and the Unknown bucket leads the top lists of the demo store. -/
theorem C10_amended_witness :
    get_location_from_gps GeoOutcome.netFailure =
      { country := some "Unknown", city := some "Unknown",
        region := some "Unknown" } ∧
    get_location_from_gps (GeoOutcome.httpResp 500 none none none none) =
      { country := some "Unknown", city := some "Unknown",
        region := some "Unknown" } ∧
    topCountries [demoUnknownScan] = [("Unknown", 1)] ∧
    topCities [demoUnknownScan] = [(("Unknown", some "Unknown"), 1)] :=
  C10_amended 500 none none none none (by decide)
